import Mathlib

/-!
Shallow embedding of `src/haoskiosk/kiosk_idle.py` (HAOS-kiosk idle/first-touch
swallow daemon).

Modelling conventions:
* Python floats (timestamps, idle seconds) are modelled as exact rationals `ℚ`;
  none of the claims depends on floating-point rounding.
* The mutable `IdleSwallowDaemon` object is the record `DaemonState`.  Each
  method becomes a pure function `DaemonState → … → DaemonState × List Effect`
  where `Effect` records the externally observable actions (overlay create or
  destroy, `xset` power commands, the `time.sleep(0.05)` settle delay, warning
  log lines).
* Environment interactions are explicit arguments: `time.time()` results are
  `now : ℚ` arguments, the XScreenSaver `query_info(...).reply()` outcome is an
  `Option ℚ` (`some idleMs` for a successful reply in milliseconds, `none` for
  a raised exception), the outcome of the X unmap/destroy/sync sequence inside
  `destroy_overlay` is an `Except String Unit`, and the server-assigned id of a
  freshly created overlay window is a `newId : Nat` argument.
* X events drained by `process_events` are the tagged variants `XEvent`:
  the five core event types the daemon classifies, the XI2 raw event types
  (plus `rawOther` for a GenericEvent whose `evtype` is not in the raw map,
  which the code names `RawUnknown(...)`), and `otherEvent` for any event that
  is neither (e.g. a StructureNotify), which the loop skips entirely.
  The `hasattr(xinput, …)` probes are modelled as all raw touch names being
  present, matching the spec description of the event set.
-/

namespace KioskIdle

/-- Core X event types classified by `process_events` (`core_names`,
kiosk_idle.py lines 204-210). -/
inductive CoreKind where
  | keyPress
  | keyRelease
  | buttonPress
  | buttonRelease
  | motionNotify
deriving DecidableEq, Repr

/-- XI2 raw event types known to `process_events` (the `raw_map` of
kiosk_idle.py lines 229-233); `rawOther` stands for a GenericEvent with an
`evtype` outside the map, which the code calls `RawUnknown(...)`. -/
inductive RawKind where
  | rawMotion
  | rawKeyPress
  | rawKeyRelease
  | rawButtonPress
  | rawButtonRelease
  | rawTouchBegin
  | rawTouchUpdate
  | rawTouchEnd
  | rawOther
deriving DecidableEq, Repr

/-- An event taken off the X queue by `process_events`: a core event, an XI2
GenericEvent carrying a raw `evtype`, or any other event (skipped by both
branches of the loop body). -/
inductive XEvent where
  | core (k : CoreKind)
  | raw (k : RawKind)
  | otherEvent
deriving DecidableEq, Repr

/-- Externally observable actions of the daemon:
`overlayCreate id` = `create_window`+`map`+`sync` (line 126-138),
`overlayDestroy id ok` = the unmap/destroy/sync attempt on window `id`
(`ok = false` when it raised), `powerOff`/`powerOn` = the
`xset dpms force off/on` shell commands, `settleDelay` = `time.sleep(0.05)`,
`logWarn m` = a `logging.warning` line. -/
inductive Effect where
  | overlayCreate (id : Nat)
  | overlayDestroy (id : Nat) (ok : Bool)
  | powerOff
  | powerOn
  | settleDelay
  | logWarn (m : String)
deriving DecidableEq, Repr

/-- The mutable state of `IdleSwallowDaemon` (kiosk_idle.py lines 71-109). -/
structure DaemonState where
  timeout : ℚ
  overlay : Option Nat
  blanked : Bool
  last_activity : ℚ
  ss_available : Bool
  xi2_raw_enabled : Bool
deriving DecidableEq, Repr

/-- Model of `IdleSwallowDaemon.__init__` (lines 71-109): `overlay = None`,
`blanked = False`, `last_activity = time.time()` (= `t0`); `ss_available` is
the outcome of the startup `screensaver.query_info` probe (`ssQueryOk`);
`xi2_raw_enabled` starts `False` and is set `True` only when `ss_available`
is false and the XI2 raw-event subscription succeeds (`xi2Ok`). -/
def initState (tmo t0 : ℚ) (ssQueryOk xi2Ok : Bool) : DaemonState :=
  { timeout := tmo
    overlay := none
    blanked := false
    last_activity := t0
    ss_available := ssQueryOk
    xi2_raw_enabled := !ssQueryOk && xi2Ok }

/-- Model of `IdleSwallowDaemon.create_overlay` (lines 119-139): no-op when an overlay
already exists; otherwise create/map/sync a fullscreen override-redirect
window and store its server-assigned id (`newId`). -/
def create_overlay (s : DaemonState) (newId : Nat) : DaemonState × List Effect :=
  match s.overlay with
  | some _ => (s, [])
  | none => ({ s with overlay := some newId }, [Effect.overlayCreate newId])

/-- Model of `IdleSwallowDaemon.destroy_overlay` (lines 141-153): no-op when no overlay
exists; otherwise attempt unmap/destroy/sync (`r` is its outcome), log a
warning if it raised, and in the `finally` block clear `self.overlay`
regardless of the outcome. -/
def destroy_overlay (s : DaemonState) (r : Except String Unit) : DaemonState × List Effect :=
  match s.overlay with
  | none => (s, [])
  | some id =>
    match r with
    | Except.ok _ => ({ s with overlay := none }, [Effect.overlayDestroy id true])
    | Except.error m =>
        ({ s with overlay := none }, [Effect.overlayDestroy id false, Effect.logWarn m])

/-- Model of `IdleSwallowDaemon.blank_screen` (lines 156-163): no-op when already
blanked; otherwise `create_overlay()`, run `xset dpms force off`, set
`blanked = True`. -/
def blank_screen (s : DaemonState) (newId : Nat) : DaemonState × List Effect :=
  if s.blanked then (s, [])
  else
    let c := create_overlay s newId
    ({ c.1 with blanked := true }, c.2 ++ [Effect.powerOff])

/-- Model of `IdleSwallowDaemon.wake_screen` (lines 165-174): no-op when not blanked;
otherwise run `xset dpms force on`, `time.sleep(0.05)`, `destroy_overlay()`,
set `blanked = False` and `last_activity = time.time()` (= `now`). -/
def wake_screen (s : DaemonState) (now : ℚ) (r : Except String Unit) :
    DaemonState × List Effect :=
  if s.blanked then
    let d := destroy_overlay s r
    ({ d.1 with blanked := false, last_activity := now },
      Effect.powerOn :: Effect.settleDelay :: d.2)
  else (s, [])

/-- Model of `IdleSwallowDaemon.get_idle_seconds` (lines 177-188): when `ss_available`,
query XScreenSaver (`q = some idleMs` is a successful reply in milliseconds,
returned as `idleMs / 1000`; `q = none` is a raised exception, which sets
`ss_available = False` for the rest of the session and falls through);
otherwise return `max 0 (now - last_activity)`. -/
def get_idle_seconds (s : DaemonState) (q : Option ℚ) (now : ℚ) : DaemonState × ℚ :=
  if s.ss_available then
    match q with
    | some idleMs => (s, idleMs / 1000)
    | none =>
        let s1 := { s with ss_available := false }
        (s1, max 0 (now - s1.last_activity))
  else (s, max 0 (now - s.last_activity))

/-- One drained event together with the environment values consumed while
processing it: `now` is the `time.time()` read while handling it, and
`destroyRes` the outcome of the X destroy sequence should this event trigger
`wake_screen`. -/
structure EvInput where
  ev : XEvent
  now : ℚ
  destroyRes : Except String Unit

/-- The raw-name membership test of kiosk_idle.py line 234:
`raw_name in ("RawButtonPress","RawTouchBegin","RawKeyPress")`. -/
def rawWakeName (k : RawKind) : Bool :=
  match k with
  | RawKind.rawButtonPress => true
  | RawKind.rawTouchBegin => true
  | RawKind.rawKeyPress => true
  | _ => false

/-- One iteration of the `while self.disp.pending_events()` body of
`IdleSwallowDaemon.process_events` (lines 193-243), for a single event.
Returns the new state, the effects, and whether the `activity` flag was set by
this event.  Core events: wake+swallow when blanked (and `swallow_if_blanked`),
else update `last_activity` when on the fallback idle path.  Raw events are
handled only when `xi2_raw_enabled` (and the event is a GenericEvent with an
`evtype`, which holding a `RawKind` encodes); only the three press/begin names
trigger wake.  Any other event falls through without touching `activity`. -/
def procStep (sw : Bool) (s : DaemonState) (i : EvInput) :
    DaemonState × List Effect × Bool :=
  match i.ev with
  | XEvent.core _ =>
    if s.blanked && sw then
      let w := wake_screen s i.now i.destroyRes
      (w.1, w.2, true)
    else if !s.ss_available then
      ({ s with last_activity := i.now }, [], true)
    else (s, [], true)
  | XEvent.raw k =>
    if s.xi2_raw_enabled then
      if s.blanked && sw && rawWakeName k then
        let w := wake_screen s i.now i.destroyRes
        (w.1, w.2, true)
      else if !s.ss_available then
        ({ s with last_activity := i.now }, [], true)
      else (s, [], true)
    else (s, [], false)
  | XEvent.otherEvent => (s, [], false)

/-- Model of `IdleSwallowDaemon.process_events` (lines 191-244): drain the queued
events in order, dispatching each with `procStep`; returns the final state,
the concatenated effects, and the `activity` flag. -/
def process_events (sw : Bool) (s : DaemonState) (evs : List EvInput) :
    DaemonState × List Effect × Bool :=
  match evs with
  | [] => (s, [], false)
  | i :: rest =>
    let p := procStep sw s i
    let q := process_events sw p.1 rest
    (q.1, p.2.1 ++ q.2.1, p.2.2 || q.2.2)

/-- The head of one iteration of `IdleSwallowDaemon.run` (lines 251-260),
before the `select` call: when not blanked, compute the idle time, blank if
`remaining <= 0` and wait unboundedly (`none`), else wait `some remaining`;
when blanked, wait unboundedly.  Returns (state, select timeout, effects). -/
def loop_prelude (s : DaemonState) (q : Option ℚ) (now : ℚ) (newId : Nat) :
    DaemonState × Option ℚ × List Effect :=
  if !s.blanked then
    let g := get_idle_seconds s q now
    let remaining := g.1.timeout - g.2
    if remaining ≤ 0 then
      let b := blank_screen g.1 newId
      (b.1, none, b.2)
    else (g.1, some remaining, [])
  else (s, none, [])

/-- One full iteration of the `while True` loop of `IdleSwallowDaemon.run`
(lines 250-265): the prelude, then `select`; `evs = none` models a timeout
with no descriptor ready (the loop just continues), `evs = some l` models
descriptor readiness followed by `process_events()` on the drained batch `l`
(with the default `swallow_if_blanked=True`). -/
def run_iteration (s : DaemonState) (q : Option ℚ) (now : ℚ) (newId : Nat)
    (evs : Option (List EvInput)) : DaemonState × List Effect :=
  let pre := loop_prelude s q now newId
  match evs with
  | none => (pre.1, pre.2.2)
  | some l =>
    let pr := process_events true pre.1 l
    (pr.1, pre.2.2 ++ pr.2.1)

/-- The operations that mutate the daemon state after construction, used to
describe reachability: the blank/wake transitions, a drained event batch, an
idle query, and a whole main-loop iteration. -/
inductive Op where
  | blank (newId : Nat)
  | wake (now : ℚ) (r : Except String Unit)
  | events (sw : Bool) (evs : List EvInput)
  | idleQuery (q : Option ℚ) (now : ℚ)
  | iterate (q : Option ℚ) (now : ℚ) (newId : Nat) (evs : Option (List EvInput))

/-- State transformer of a single operation (effects discarded). -/
def applyOp (s : DaemonState) : Op → DaemonState
  | Op.blank newId => (blank_screen s newId).1
  | Op.wake now r => (wake_screen s now r).1
  | Op.events sw evs => (process_events sw s evs).1
  | Op.idleQuery q now => (get_idle_seconds s q now).1
  | Op.iterate q now newId evs => (run_iteration s q now newId evs).1

/-- State after a sequence of operations. -/
def applyOps (s : DaemonState) (ops : List Op) : DaemonState :=
  ops.foldl applyOp s

/-- The §3 invariant: the overlay handle is present exactly when the screen is
blanked. -/
def stateInv (s : DaemonState) : Prop :=
  s.overlay.isSome = s.blanked

/-- The wake-trigger condition of `process_events` for an event arriving while
blanked with swallowing enabled: any core event, or a raw press/begin event
while the XI2 raw subscription is active. -/
def isWakeTrigger (s : DaemonState) (e : XEvent) : Bool :=
  match e with
  | XEvent.core _ => true
  | XEvent.raw k => s.xi2_raw_enabled && rawWakeName k
  | XEvent.otherEvent => false

/-- A concrete blanked state on the fallback idle path with the XI2 raw
subscription active, used to instantiate the theorems below. -/
def exBlanked : DaemonState :=
  { timeout := 30
    overlay := some 5
    blanked := true
    last_activity := 0
    ss_available := false
    xi2_raw_enabled := true }

/-- A concrete awake state on the XScreenSaver idle path. -/
def exAwake : DaemonState :=
  { timeout := 30
    overlay := none
    blanked := false
    last_activity := 0
    ss_available := true
    xi2_raw_enabled := false }

/-- A concrete awake state on the fallback idle path with the XI2 raw
subscription active. -/
def exAwakeFb : DaemonState :=
  { timeout := 30
    overlay := none
    blanked := false
    last_activity := 0
    ss_available := false
    xi2_raw_enabled := true }

/-- The Scenario E batch drained in one wake-up while blanked:
RawTouchBegin, RawMotion, RawButtonPress. -/
def scenarioE : List EvInput :=
  [ { ev := XEvent.raw RawKind.rawTouchBegin, now := 100, destroyRes := Except.ok () }
  , { ev := XEvent.raw RawKind.rawMotion, now := 100, destroyRes := Except.ok () }
  , { ev := XEvent.raw RawKind.rawButtonPress, now := 100, destroyRes := Except.ok () } ]

/-! ### State characterization lemmas -/

theorem destroy_overlay_fst (s : DaemonState) (r : Except String Unit) :
    (destroy_overlay s r).1 = { s with overlay := none } := by
  rcases s with ⟨t, ov, b, la, ss, xi⟩
  cases ov <;> cases r <;> rfl

theorem wake_screen_fst (s : DaemonState) (now : ℚ) (r : Except String Unit) :
    (wake_screen s now r).1 =
      if s.blanked then
        { s with overlay := none, blanked := false, last_activity := now }
      else s := by
  unfold wake_screen
  cases hb : s.blanked <;> simp [hb, destroy_overlay_fst]

theorem get_idle_fst (s : DaemonState) (q : Option ℚ) (now : ℚ) :
    (get_idle_seconds s q now).1 = s ∨
    (get_idle_seconds s q now).1 = { s with ss_available := false } := by
  unfold get_idle_seconds
  cases hss : s.ss_available <;> cases q <;> simp

theorem blank_screen_blanked (s : DaemonState) (newId : Nat) :
    (blank_screen s newId).1.blanked = true := by
  rcases s with ⟨t, ov, b, la, ss, xi⟩
  cases b <;> cases ov <;> rfl

/-! ### Invariant preservation -/

theorem inv_blank (s : DaemonState) (newId : Nat) (h : stateInv s) :
    stateInv (blank_screen s newId).1 := by
  rcases s with ⟨t, ov, b, la, ss, xi⟩
  unfold stateInv at *
  cases b <;> cases ov <;> simp_all [blank_screen, create_overlay]

theorem inv_wake (s : DaemonState) (now : ℚ) (r : Except String Unit)
    (h : stateInv s) : stateInv (wake_screen s now r).1 := by
  unfold stateInv at *
  rw [wake_screen_fst]
  cases hb : s.blanked <;> simp_all

theorem inv_get_idle (s : DaemonState) (q : Option ℚ) (now : ℚ)
    (h : stateInv s) : stateInv (get_idle_seconds s q now).1 := by
  rcases get_idle_fst s q now with hg | hg <;> rw [hg] <;> exact h

theorem inv_procStep (sw : Bool) (s : DaemonState) (i : EvInput)
    (h : stateInv s) : stateInv (procStep sw s i).1 := by
  rcases i with ⟨ev, now, r⟩
  cases ev with
  | core k =>
    simp only [procStep]
    split
    · exact inv_wake s now r h
    · split <;> exact h
  | raw k =>
    simp only [procStep]
    split
    · split
      · exact inv_wake s now r h
      · split <;> exact h
    · exact h
  | otherEvent => exact h

theorem inv_process_events (sw : Bool) (s : DaemonState) (evs : List EvInput)
    (h : stateInv s) : stateInv (process_events sw s evs).1 := by
  induction evs generalizing s with
  | nil => exact h
  | cons i rest ih =>
    exact ih (procStep sw s i).1 (inv_procStep sw s i h)

theorem inv_prelude (s : DaemonState) (q : Option ℚ) (now : ℚ) (newId : Nat)
    (h : stateInv s) : stateInv (loop_prelude s q now newId).1 := by
  unfold loop_prelude
  cases hb : s.blanked <;> simp [hb]
  · split
    · exact inv_blank _ _ (inv_get_idle s q now h)
    · exact inv_get_idle s q now h
  · exact h

theorem inv_run_iteration (s : DaemonState) (q : Option ℚ) (now : ℚ)
    (newId : Nat) (evs : Option (List EvInput)) (h : stateInv s) :
    stateInv (run_iteration s q now newId evs).1 := by
  unfold run_iteration
  cases evs with
  | none => exact inv_prelude s q now newId h
  | some l =>
    exact inv_process_events true _ l (inv_prelude s q now newId h)

theorem inv_applyOp (s : DaemonState) (o : Op) (h : stateInv s) :
    stateInv (applyOp s o) := by
  cases o with
  | blank newId => exact inv_blank s newId h
  | wake now r => exact inv_wake s now r h
  | events sw evs => exact inv_process_events sw s evs h
  | idleQuery q now => exact inv_get_idle s q now h
  | iterate q now newId evs => exact inv_run_iteration s q now newId evs h

theorem inv_applyOps (s : DaemonState) (ops : List Op) (h : stateInv s) :
    stateInv (applyOps s ops) := by
  induction ops generalizing s with
  | nil => exact h
  | cons o rest ih => exact ih (applyOp s o) (inv_applyOp s o h)

/-! ### The raw-subscription flag is never written after construction -/

theorem blank_xi2 (s : DaemonState) (newId : Nat) :
    (blank_screen s newId).1.xi2_raw_enabled = s.xi2_raw_enabled := by
  rcases s with ⟨t, ov, b, la, ss, xi⟩
  cases b <;> cases ov <;> rfl

theorem wake_xi2 (s : DaemonState) (now : ℚ) (r : Except String Unit) :
    (wake_screen s now r).1.xi2_raw_enabled = s.xi2_raw_enabled := by
  rw [wake_screen_fst]
  cases hb : s.blanked <;> simp

theorem get_idle_xi2 (s : DaemonState) (q : Option ℚ) (now : ℚ) :
    (get_idle_seconds s q now).1.xi2_raw_enabled = s.xi2_raw_enabled := by
  rcases get_idle_fst s q now with hg | hg <;> rw [hg]

theorem procStep_xi2 (sw : Bool) (s : DaemonState) (i : EvInput) :
    (procStep sw s i).1.xi2_raw_enabled = s.xi2_raw_enabled := by
  rcases i with ⟨ev, now, r⟩
  cases ev with
  | core k =>
    simp only [procStep]
    split
    · exact wake_xi2 s now r
    · split <;> rfl
  | raw k =>
    simp only [procStep]
    split
    · split
      · exact wake_xi2 s now r
      · split <;> rfl
    · rfl
  | otherEvent => rfl

theorem process_events_xi2 (sw : Bool) (s : DaemonState) (evs : List EvInput) :
    (process_events sw s evs).1.xi2_raw_enabled = s.xi2_raw_enabled := by
  induction evs generalizing s with
  | nil => rfl
  | cons i rest ih =>
    simp only [process_events]
    rw [ih (procStep sw s i).1, procStep_xi2]

theorem prelude_xi2 (s : DaemonState) (q : Option ℚ) (now : ℚ) (newId : Nat) :
    (loop_prelude s q now newId).1.xi2_raw_enabled = s.xi2_raw_enabled := by
  unfold loop_prelude
  cases hb : s.blanked <;> simp [hb]
  split
  · rw [blank_xi2, get_idle_xi2]
  · rw [get_idle_xi2]

theorem run_iteration_xi2 (s : DaemonState) (q : Option ℚ) (now : ℚ)
    (newId : Nat) (evs : Option (List EvInput)) :
    (run_iteration s q now newId evs).1.xi2_raw_enabled = s.xi2_raw_enabled := by
  unfold run_iteration
  cases evs with
  | none => exact prelude_xi2 s q now newId
  | some l => rw [process_events_xi2, prelude_xi2]

theorem applyOp_xi2 (s : DaemonState) (o : Op) :
    (applyOp s o).xi2_raw_enabled = s.xi2_raw_enabled := by
  cases o with
  | blank newId => exact blank_xi2 s newId
  | wake now r => exact wake_xi2 s now r
  | events sw evs => exact process_events_xi2 sw s evs
  | idleQuery q now => exact get_idle_xi2 s q now
  | iterate q now newId evs => exact run_iteration_xi2 s q now newId evs

theorem applyOps_xi2 (s : DaemonState) (ops : List Op) :
    (applyOps s ops).xi2_raw_enabled = s.xi2_raw_enabled := by
  induction ops generalizing s with
  | nil => rfl
  | cons o rest ih => rw [applyOps, List.foldl_cons, ← applyOps, ih, applyOp_xi2]

/-! ### The idle-query availability flag never returns to true -/

theorem blank_ss (s : DaemonState) (newId : Nat) :
    (blank_screen s newId).1.ss_available = s.ss_available := by
  rcases s with ⟨t, ov, b, la, ss, xi⟩
  cases b <;> cases ov <;> rfl

theorem wake_ss (s : DaemonState) (now : ℚ) (r : Except String Unit) :
    (wake_screen s now r).1.ss_available = s.ss_available := by
  rw [wake_screen_fst]
  cases hb : s.blanked <;> simp

theorem get_idle_ss (s : DaemonState) (q : Option ℚ) (now : ℚ)
    (h : s.ss_available = false) :
    (get_idle_seconds s q now).1.ss_available = false := by
  rcases get_idle_fst s q now with hg | hg <;> rw [hg]
  exact h

theorem procStep_ss (sw : Bool) (s : DaemonState) (i : EvInput) :
    (procStep sw s i).1.ss_available = s.ss_available := by
  rcases i with ⟨ev, now, r⟩
  cases ev with
  | core k =>
    simp only [procStep]
    split
    · exact wake_ss s now r
    · split <;> rfl
  | raw k =>
    simp only [procStep]
    split
    · split
      · exact wake_ss s now r
      · split <;> rfl
    · rfl
  | otherEvent => rfl

theorem process_events_ss (sw : Bool) (s : DaemonState) (evs : List EvInput) :
    (process_events sw s evs).1.ss_available = s.ss_available := by
  induction evs generalizing s with
  | nil => rfl
  | cons i rest ih =>
    simp only [process_events]
    rw [ih (procStep sw s i).1, procStep_ss]

theorem prelude_ss (s : DaemonState) (q : Option ℚ) (now : ℚ) (newId : Nat)
    (h : s.ss_available = false) :
    (loop_prelude s q now newId).1.ss_available = false := by
  unfold loop_prelude
  cases hb : s.blanked <;> simp [hb]
  · split
    · rw [blank_ss]
      exact get_idle_ss s q now h
    · exact get_idle_ss s q now h
  · exact h

theorem run_iteration_ss (s : DaemonState) (q : Option ℚ) (now : ℚ)
    (newId : Nat) (evs : Option (List EvInput)) (h : s.ss_available = false) :
    (run_iteration s q now newId evs).1.ss_available = false := by
  unfold run_iteration
  cases evs with
  | none => exact prelude_ss s q now newId h
  | some l => rw [process_events_ss]; exact prelude_ss s q now newId h

theorem applyOp_ss (s : DaemonState) (o : Op) (h : s.ss_available = false) :
    (applyOp s o).ss_available = false := by
  cases o with
  | blank newId => rw [applyOp, blank_ss]; exact h
  | wake now r => rw [applyOp, wake_ss]; exact h
  | events sw evs => rw [applyOp, process_events_ss]; exact h
  | idleQuery q now => exact get_idle_ss s q now h
  | iterate q now newId evs => exact run_iteration_ss s q now newId evs h

theorem applyOps_ss (s : DaemonState) (ops : List Op) (h : s.ss_available = false) :
    (applyOps s ops).ss_available = false := by
  induction ops generalizing s with
  | nil => exact h
  | cons o rest ih =>
    rw [applyOps, List.foldl_cons, ← applyOps]
    exact ih (applyOp s o) (applyOp_ss s o h)

/-! ### Effects of the wake path -/

theorem destroy_no_powerOn (s : DaemonState) (r : Except String Unit) :
    (destroy_overlay s r).2.count Effect.powerOn = 0 := by
  rcases s with ⟨t, ov, b, la, ss, xi⟩
  cases ov <;> cases r <;> rfl

theorem wake_effects (s : DaemonState) (now : ℚ) (r : Except String Unit)
    (hb : s.blanked = true) :
    (wake_screen s now r).2 =
      Effect.powerOn :: Effect.settleDelay :: (destroy_overlay s r).2 := by
  unfold wake_screen
  simp [hb]

theorem wake_noop (s : DaemonState) (now : ℚ) (r : Except String Unit)
    (hb : s.blanked = false) : wake_screen s now r = (s, []) := by
  unfold wake_screen
  simp [hb]

theorem procStep_core_wake (s : DaemonState) (now : ℚ) (r : Except String Unit)
    (k : CoreKind) (hb : s.blanked = true) :
    procStep true s { ev := XEvent.core k, now := now, destroyRes := r } =
      ((wake_screen s now r).1, (wake_screen s now r).2, true) := by
  simp [procStep, hb]

theorem procStep_raw_wake (s : DaemonState) (now : ℚ) (r : Except String Unit)
    (k : RawKind) (hb : s.blanked = true) (hx : s.xi2_raw_enabled = true)
    (hw : rawWakeName k = true) :
    procStep true s { ev := XEvent.raw k, now := now, destroyRes := r } =
      ((wake_screen s now r).1, (wake_screen s now r).2, true) := by
  simp [procStep, hb, hx, hw]

theorem procStep_raw_noWake (sw : Bool) (s : DaemonState) (now : ℚ)
    (r : Except String Unit) (k : RawKind) (hx : s.xi2_raw_enabled = true)
    (hw : rawWakeName k = false) :
    procStep sw s { ev := XEvent.raw k, now := now, destroyRes := r } =
      (if s.ss_available then s else { s with last_activity := now }, [], true) := by
  simp only [procStep, hx, hw, Bool.and_false, Bool.false_eq_true, if_false, if_true]
  cases hss : s.ss_available <;> simp [hss]

/-! ### Processing while awake produces no effects -/

theorem procStep_awake (sw : Bool) (s : DaemonState) (i : EvInput)
    (hb : s.blanked = false) :
    (procStep sw s i).2.1 = [] ∧ (procStep sw s i).1.blanked = false := by
  rcases i with ⟨ev, now, r⟩
  cases ev with
  | core k =>
    simp only [procStep, hb]
    simp only [Bool.false_and, Bool.false_eq_true, if_false]
    split <;> exact ⟨rfl, by simp [hb]⟩
  | raw k =>
    simp only [procStep, hb]
    split
    · simp only [Bool.false_and, Bool.false_eq_true, if_false]
      split <;> exact ⟨rfl, by simp [hb]⟩
    · exact ⟨rfl, hb⟩
  | otherEvent => exact ⟨rfl, hb⟩

theorem process_events_awake (sw : Bool) (s : DaemonState) (evs : List EvInput)
    (hb : s.blanked = false) :
    (process_events sw s evs).2.1 = [] ∧
    (process_events sw s evs).1.blanked = false := by
  induction evs generalizing s with
  | nil => exact ⟨rfl, hb⟩
  | cons i rest ih =>
    have h1 := procStep_awake sw s i hb
    have h2 := ih (procStep sw s i).1 h1.2
    simp only [process_events]
    exact ⟨by rw [h1.1, h2.1]; rfl, h2.2⟩

theorem procStep_trigger (s : DaemonState) (i : EvInput)
    (hb : s.blanked = true) (ht : isWakeTrigger s i.ev = true) :
    (procStep true s i).2.1.count Effect.powerOn = 1 ∧
    (procStep true s i).1.blanked = false := by
  rcases i with ⟨ev, now, r⟩
  cases ev with
  | core k =>
    rw [procStep_core_wake s now r k hb]
    constructor
    · rw [wake_effects s now r hb]
      simp [List.count_cons, destroy_no_powerOn]
    · rw [wake_screen_fst]
      simp [hb]
  | raw k =>
    simp only [isWakeTrigger, Bool.and_eq_true] at ht
    rw [procStep_raw_wake s now r k hb ht.1 ht.2]
    constructor
    · rw [wake_effects s now r hb]
      simp [List.count_cons, destroy_no_powerOn]
    · rw [wake_screen_fst]
      simp [hb]
  | otherEvent => simp [isWakeTrigger] at ht

/-! ### Loop-prelude helpers -/

theorem get_idle_timeout (s : DaemonState) (q : Option ℚ) (now : ℚ) :
    (get_idle_seconds s q now).1.timeout = s.timeout := by
  rcases get_idle_fst s q now with hg | hg <;> rw [hg]

theorem get_idle_blanked (s : DaemonState) (q : Option ℚ) (now : ℚ) :
    (get_idle_seconds s q now).1.blanked = s.blanked := by
  rcases get_idle_fst s q now with hg | hg <;> rw [hg]

theorem blank_overlay_isSome (s : DaemonState) (newId : Nat)
    (hb : s.blanked = false) :
    (blank_screen s newId).1.overlay.isSome = true := by
  rcases s with ⟨t, ov, b, la, ss, xi⟩
  simp only at hb
  subst hb
  cases ov <;> rfl

theorem blank_effects_powerOff (s : DaemonState) (newId : Nat)
    (hb : s.blanked = false) :
    Effect.powerOff ∈ (blank_screen s newId).2 := by
  unfold blank_screen
  simp [hb]

/-! ### The claims -/

/-- C1: for every reachable state of the daemon — the initial state and any
state after any sequence of blank_screen, wake_screen, process_events,
get_idle_seconds calls and main-loop iterations — the overlay handle is
present (some) exactly when `blanked` is true. -/
theorem C1_overlay_iff_blanked (tmo t0 : ℚ) (ssQueryOk xi2Ok : Bool)
    (ops : List Op) :
    (applyOps (initState tmo t0 ssQueryOk xi2Ok) ops).overlay.isSome =
      (applyOps (initState tmo t0 ssQueryOk xi2Ok) ops).blanked :=
  inv_applyOps _ ops rfl

/-- C2: for an event processed while blanked (swallowing enabled, XI2 raw
subscription active): every core KeyPress, KeyRelease, ButtonPress,
ButtonRelease or MotionNotify event triggers the Wake transition (the state
leaves `blanked`), and among raw events exactly RawButtonPress, RawTouchBegin
and RawKeyPress trigger it — RawMotion, RawKeyRelease, RawButtonRelease,
RawTouchUpdate, RawTouchEnd (and unknown raw events) never do. -/
theorem C2_wake_trigger_classification (s : DaemonState) (now : ℚ)
    (r : Except String Unit) (hb : s.blanked = true)
    (hx : s.xi2_raw_enabled = true) :
    (∀ k : CoreKind,
      (procStep true s { ev := XEvent.core k, now := now, destroyRes := r }).1.blanked
        = false) ∧
    (∀ k : RawKind,
      ((procStep true s { ev := XEvent.raw k, now := now, destroyRes := r }).1.blanked
          = false ↔
        (k = RawKind.rawButtonPress ∨ k = RawKind.rawTouchBegin ∨
          k = RawKind.rawKeyPress))) := by
  constructor
  · intro k
    rw [procStep_core_wake s now r k hb, wake_screen_fst]
    simp [hb]
  · intro k
    cases k <;>
      simp [procStep, hb, hx, rawWakeName, wake_screen_fst, apply_ite]

/-- Witness for C2 at the concrete blanked fallback-mode state. -/
theorem C2_witness :
    (procStep true exBlanked
      { ev := XEvent.core CoreKind.buttonPress, now := 7,
        destroyRes := Except.ok () }).1.blanked = false :=
  (C2_wake_trigger_classification exBlanked 7 (Except.ok ()) rfl rfl).1
    CoreKind.buttonPress

/-- C3: in a main-loop iteration entered while not blanked, if
`timeout − get_idle_seconds() ≤ 0` the screen is blanked before waiting (the
resulting state is blanked with an overlay mapped and the power-off command
among the issued effects) and the subsequent wait is unbounded (`none`);
otherwise no blanking occurs, no effect is issued, and the wait timeout equals
`timeout − get_idle_seconds()`.  In an iteration entered while blanked the
state is untouched and the wait is unbounded. -/
theorem C3_wait_strategy (s : DaemonState) (q : Option ℚ) (now : ℚ)
    (newId : Nat) :
    (s.blanked = false →
      ((s.timeout - (get_idle_seconds s q now).2 ≤ 0 →
        (loop_prelude s q now newId).1.blanked = true ∧
        (loop_prelude s q now newId).1.overlay.isSome = true ∧
        (loop_prelude s q now newId).2.1 = none ∧
        Effect.powerOff ∈ (loop_prelude s q now newId).2.2) ∧
       (0 < s.timeout - (get_idle_seconds s q now).2 →
        (loop_prelude s q now newId).1 = (get_idle_seconds s q now).1 ∧
        (loop_prelude s q now newId).2.1 =
          some (s.timeout - (get_idle_seconds s q now).2) ∧
        (loop_prelude s q now newId).2.2 = []))) ∧
    (s.blanked = true → loop_prelude s q now newId = (s, none, [])) := by
  constructor
  · intro hb
    constructor
    · intro hr
      rw [← get_idle_timeout s q now] at hr
      simp only [loop_prelude, hb, Bool.not_false, if_true]
      rw [if_pos hr]
      have hgb : (get_idle_seconds s q now).1.blanked = false := by
        rw [get_idle_blanked]; exact hb
      exact ⟨blank_screen_blanked _ _, blank_overlay_isSome _ _ hgb, rfl,
        blank_effects_powerOff _ _ hgb⟩
    · intro hr
      have hr' :
          ¬((get_idle_seconds s q now).1.timeout -
              (get_idle_seconds s q now).2 ≤ 0) := by
        rw [get_idle_timeout]
        exact not_le.mpr (by linarith)
      simp only [loop_prelude, hb, Bool.not_false, if_true]
      rw [if_neg hr']
      exact ⟨rfl, by rw [get_idle_timeout], rfl⟩
  · intro hb
    unfold loop_prelude
    simp [hb]

/-- Witness for C3 at a concrete awake state whose idle query reports 60s
against a 30s timeout, forcing the blank branch. -/
theorem C3_witness :
    (loop_prelude exAwake (some 60000) 100 9).1.blanked = true ∧
    (loop_prelude exAwake (some 60000) 100 9).1.overlay.isSome = true ∧
    (loop_prelude exAwake (some 60000) 100 9).2.1 = none ∧
    Effect.powerOff ∈ (loop_prelude exAwake (some 60000) 100 9).2.2 :=
  ((C3_wait_strategy exAwake (some 60000) 100 9).1 rfl).1
    (by norm_num [get_idle_seconds, exAwake])

/-- C4: in a drained batch processed while blanked whose first event
qualifies, the wake actions run exactly once (one power-on in the whole
batch, final state not blanked); events processed while not blanked never
issue effects and never blank, so the remainder of the batch is ordinary
activity.  Concretely, the batch [RawTouchBegin, RawMotion, RawButtonPress]
from the blanked fallback state produces exactly one wake sequence. -/
theorem C4_single_swallow_per_batch :
    (∀ (sw : Bool) (s : DaemonState) (evs : List EvInput), s.blanked = false →
      (process_events sw s evs).2.1 = [] ∧
      (process_events sw s evs).1.blanked = false) ∧
    (∀ (s : DaemonState) (i : EvInput) (rest : List EvInput),
      s.blanked = true → isWakeTrigger s i.ev = true →
      (process_events true s (i :: rest)).2.1.count Effect.powerOn = 1 ∧
      (process_events true s (i :: rest)).1.blanked = false) ∧
    ((process_events true exBlanked scenarioE).2.1 =
        [Effect.powerOn, Effect.settleDelay, Effect.overlayDestroy 5 true] ∧
      (process_events true exBlanked scenarioE).1.blanked = false) := by
  refine ⟨process_events_awake, ?_, by decide, by decide⟩
  intro s i rest hb ht
  have h1 := procStep_trigger s i hb ht
  have h2 := process_events_awake true (procStep true s i).1 rest h1.2
  simp only [process_events]
  constructor
  · rw [h2.1, List.append_nil]
    exact h1.1
  · exact h2.2

/-- Witness for C4 on the Scenario E batch from the blanked fallback state. -/
theorem C4_witness :
    (process_events true exBlanked scenarioE).2.1.count Effect.powerOn = 1 ∧
    (process_events true exBlanked scenarioE).1.blanked = false :=
  C4_single_swallow_per_batch.2.1 exBlanked
    { ev := XEvent.raw RawKind.rawTouchBegin, now := 100,
      destroyRes := Except.ok () }
    [ { ev := XEvent.raw RawKind.rawMotion, now := 100,
        destroyRes := Except.ok () }
    , { ev := XEvent.raw RawKind.rawButtonPress, now := 100,
        destroyRes := Except.ok () } ] rfl rfl

/-- C5: once the platform idle query fails, `ss_available` is set to false
and the call already returns the fallback `max 0 (now − last_activity)`;
with `ss_available` false every `get_idle_seconds` call returns that
fallback; and no sequence of operations ever sets `ss_available` back to
true. -/
theorem C5_fallback_monotone :
    (∀ (s : DaemonState) (now : ℚ),
      (get_idle_seconds s none now).1.ss_available = false ∧
      (get_idle_seconds s none now).2 = max 0 (now - s.last_activity)) ∧
    (∀ (s : DaemonState) (q : Option ℚ) (now : ℚ), s.ss_available = false →
      (get_idle_seconds s q now).2 = max 0 (now - s.last_activity)) ∧
    (∀ (s : DaemonState) (ops : List Op), s.ss_available = false →
      (applyOps s ops).ss_available = false) := by
  refine ⟨?_, ?_, applyOps_ss⟩
  · intro s now
    unfold get_idle_seconds
    cases hss : s.ss_available <;> simp [hss]
  · intro s q now h
    unfold get_idle_seconds
    simp [h]

/-- Witness for C5 at the concrete fallback-mode state. -/
theorem C5_witness :
    (get_idle_seconds exBlanked (some 1000) 42).2 =
      max 0 (42 - exBlanked.last_activity) :=
  C5_fallback_monotone.2.1 exBlanked (some 1000) 42 rfl

/-- C6: `create_overlay` is a no-op when an overlay handle already exists,
`destroy_overlay` is a no-op when none exists, `blank_screen` while already
blanked creates no overlay and issues no power command, and two consecutive
blank calls have the same observable effect as one (the second changes
nothing and issues nothing). -/
theorem C6_idempotence :
    (∀ (s : DaemonState) (newId j : Nat), s.overlay = some j →
      create_overlay s newId = (s, [])) ∧
    (∀ (s : DaemonState) (r : Except String Unit), s.overlay = none →
      destroy_overlay s r = (s, [])) ∧
    (∀ (s : DaemonState) (newId : Nat), s.blanked = true →
      blank_screen s newId = (s, [])) ∧
    (∀ (s : DaemonState) (i1 i2 : Nat),
      blank_screen (blank_screen s i1).1 i2 = ((blank_screen s i1).1, [])) := by
  have h3 : ∀ (s : DaemonState) (newId : Nat), s.blanked = true →
      blank_screen s newId = (s, []) := by
    intro s newId h
    unfold blank_screen
    simp [h]
  refine ⟨?_, ?_, h3, ?_⟩
  · intro s newId j h
    unfold create_overlay
    rw [h]
  · intro s r h
    unfold destroy_overlay
    rw [h]
  · intro s i1 i2
    exact h3 _ i2 (blank_screen_blanked s i1)

/-- Witness for C6: blanking the already-blanked concrete state is a no-op. -/
theorem C6_witness : blank_screen exBlanked 7 = (exBlanked, []) :=
  C6_idempotence.2.2.1 exBlanked 7 rfl

/-- C7: `wake_screen` called while blanked performs, in order, the power-on
command, the fixed settle delay, then the overlay destruction, and leaves a
state with `blanked` false, the overlay handle cleared and `last_activity`
reset to the current time; called while not blanked it changes nothing and
issues nothing. -/
theorem C7_wake_sequence (s : DaemonState) (now : ℚ) (r : Except String Unit) :
    (s.blanked = true →
      (wake_screen s now r).2 =
        Effect.powerOn :: Effect.settleDelay :: (destroy_overlay s r).2 ∧
      (wake_screen s now r).1 =
        { s with overlay := none, blanked := false, last_activity := now }) ∧
    (s.blanked = false → wake_screen s now r = (s, [])) := by
  constructor
  · intro hb
    refine ⟨wake_effects s now r hb, ?_⟩
    rw [wake_screen_fst, if_pos hb]
  · exact wake_noop s now r

/-- Witness for C7 at the concrete blanked state. -/
theorem C7_witness :
    (wake_screen exBlanked 100 (Except.ok ())).2 =
      Effect.powerOn :: Effect.settleDelay ::
        (destroy_overlay exBlanked (Except.ok ())).2 ∧
    (wake_screen exBlanked 100 (Except.ok ())).1 =
      { exBlanked with overlay := none, blanked := false, last_activity := 100 } :=
  (C7_wake_sequence exBlanked 100 (Except.ok ())).1 rfl

/-- C8: `destroy_overlay` never propagates a failure of the X unmap/destroy
sequence — for every outcome, including an error, it returns normally with
the overlay handle cleared (the state is exactly the input with
`overlay := none`), and on an error with an existing overlay its effects are
the failed destroy attempt plus a logged warning. -/
theorem C8_destroy_error_containment :
    (∀ (s : DaemonState) (r : Except String Unit),
      (destroy_overlay s r).1 = { s with overlay := none }) ∧
    (∀ (s : DaemonState) (j : Nat) (m : String), s.overlay = some j →
      (destroy_overlay s (Except.error m)).2 =
        [Effect.overlayDestroy j false, Effect.logWarn m]) := by
  refine ⟨destroy_overlay_fst, ?_⟩
  intro s j m h
  unfold destroy_overlay
  rw [h]

/-- Witness for C8: destroying the concrete overlay with a failing X call
still clears the handle and logs. -/
theorem C8_witness :
    (destroy_overlay exBlanked (Except.error ("boom"))).2 =
      [Effect.overlayDestroy 5 false, Effect.logWarn ("boom")] :=
  C8_destroy_error_containment.2 exBlanked 5 ("boom") rfl

/-- C9: while not blanked and on the fallback idle path, every classified
input event — any core event, and any raw event when the XI2 raw
subscription is active — updates `last_activity` to the current time and
sets the activity flag. -/
theorem C9_awake_activity (sw : Bool) (s : DaemonState) (now : ℚ)
    (r : Except String Unit) (hb : s.blanked = false)
    (hss : s.ss_available = false) :
    (∀ k : CoreKind,
      (procStep sw s { ev := XEvent.core k, now := now, destroyRes := r }).1.last_activity = now ∧
      (procStep sw s { ev := XEvent.core k, now := now, destroyRes := r }).2.2 = true) ∧
    (s.xi2_raw_enabled = true →
      ∀ k : RawKind,
      (procStep sw s { ev := XEvent.raw k, now := now, destroyRes := r }).1.last_activity = now ∧
      (procStep sw s { ev := XEvent.raw k, now := now, destroyRes := r }).2.2 = true) := by
  constructor
  · intro k
    simp [procStep, hb, hss]
  · intro hx k
    simp [procStep, hb, hss, hx]

/-- Witness for C9 at the concrete awake fallback state. -/
theorem C9_witness :
    (procStep true exAwakeFb { ev := XEvent.core CoreKind.keyPress, now := 55, destroyRes := Except.ok () }).1.last_activity = 55 ∧
    (procStep true exAwakeFb { ev := XEvent.core CoreKind.keyPress, now := 55, destroyRes := Except.ok () }).2.2 = true :=
  (C9_awake_activity true exAwakeFb 55 (Except.ok ()) rfl rfl).1
    CoreKind.keyPress

/-- C10: the XI2 raw-subscription flag is set only during construction, and
only when the platform idle query was unavailable at startup: a daemon
constructed with the query available starts with the flag false, no
operation (including runtime degradation through `get_idle_seconds`) ever
changes the flag, and hence every state reachable from such a daemon has the
flag false. -/
theorem C10_raw_subscription_startup_only :
    (∀ (tmo t0 : ℚ) (xi2Ok : Bool),
      (initState tmo t0 true xi2Ok).xi2_raw_enabled = false) ∧
    (∀ (s : DaemonState) (ops : List Op),
      (applyOps s ops).xi2_raw_enabled = s.xi2_raw_enabled) ∧
    (∀ (tmo t0 : ℚ) (xi2Ok : Bool) (ops : List Op),
      (applyOps (initState tmo t0 true xi2Ok) ops).xi2_raw_enabled = false) := by
  refine ⟨?_, applyOps_xi2, ?_⟩
  · intro tmo t0 xi2Ok
    rfl
  · intro tmo t0 xi2Ok ops
    rw [applyOps_xi2]
    rfl

end KioskIdle
